import Mathlib

/-!
# Verification of the corosync cluster driver (`src/sheep/cluster/corosync.c`)

A shallow embedding of the membership / event-dispatch core of the corosync
cluster driver, together with theorems settling the frozen claims about it.

Conventions of the embedding:
* machine integers (`uint32_t`, `size_t`) are modelled as `Nat`; no arithmetic
  in the modelled code can overflow (counters are bounded by list lengths);
* the fixed global array `cpg_nodes[SD_MAX_NODES]` is modelled as a
  `List cpg_node` of length `SD_MAX_NODES` (statics are zero-initialised);
  `nr_cpg_nodes` is carried separately, exactly as in the source;
* C functions returning `-1` for "not found" are modelled with `Option Nat`
  (`is_master`, whose ordinary returns are indices but whose negative result
  is compared with `< 0`, keeps `Int`);
* `NULL` message payloads are `Option (List Nat)`; payload bytes are opaque
  `Nat`s;
* the host's callbacks (`sd_check_join_cb`, `sd_block_handler`, ...) are an
  explicit parameter (`HostCallbacks`); invocations of the void callbacks are
  recorded in an upcall trace;
* `poll(cpg_fd)` at the top of `__corosync_dispatch` is an input from the
  environment, modelled as an explicit `pending : Bool` argument;
* `panic`/`exit(1)` are modelled by a fatal marker in the step result; a
  fatal step ends a run.
-/

/-- Modelled from the spec: the roster bound `MAX_NODES` (`SD_MAX_NODES` in
the source) comes from a header that is not part of the shown source; the
spec only states that the roster has bounded length `MAX_NODES`.  The value
used by the deployed headers of this era is 1024; no claim depends on the
exact value. -/
def SD_MAX_NODES : Nat := 1024

/-- Model of `struct cpg_node` (corosync.c:24): nodeid, pid, the `gone` tombstone and
the opaque host descriptor `struct sd_node ent` (modelled as an opaque `Nat`).
The `gone` field is a `uint32_t` used only as a flag (values 0/1). -/
structure cpg_node where
  nodeid : Nat
  pid : Nat
  gone : Bool
  ent : Nat
deriving DecidableEq

instance : Inhabited cpg_node := ⟨⟨0, 0, false, 0⟩⟩

/-- The zero-initialised `struct cpg_node` (static storage). -/
def zero_node : cpg_node := ⟨0, 0, false, 0⟩

/-- Model of `cpg_node_equal` (corosync.c:92): equality on the `(nodeid, pid)` pair. -/
def cpg_node_equal (a b : cpg_node) : Bool :=
  a.nodeid == b.nodeid && a.pid == b.pid

/-- Model of `find_cpg_node` (corosync.c:97): first index `i < nr_nodes` with
`cpg_node_equal(nodes + i, key)`; C returns `-1` when absent, modelled as
`none`. -/
def find_cpg_node (nodes : List cpg_node) (nr_nodes : Nat) (key : cpg_node) : Option Nat :=
  let t := nodes.take nr_nodes
  let i := t.findIdx (fun c => cpg_node_equal c key)
  if i < t.length then some i else none

/-- Model of `add_cpg_node` (corosync.c:109): writes `*added` into slot `nr_nodes`
(the local `nr_nodes++` does not escape; the caller increments the global
count itself). -/
def add_cpg_node (nodes : List cpg_node) (nr_nodes : Nat) (added : cpg_node) : List cpg_node :=
  nodes.set nr_nodes added

/-- Model of `del_cpg_node` (corosync.c:115): finds the entry, decrements the local
count and `memmove`s `(nr_nodes - 1) - idx` entries down by one slot.  Slots
from position `nr_nodes - 1` on keep their old contents (the last valid entry
is left behind as a stale copy).  The caller decrements the global count. -/
def del_cpg_node (nodes : List cpg_node) (nr_nodes : Nat) (deled : cpg_node) : List cpg_node :=
  match find_cpg_node nodes nr_nodes deled with
  | none => nodes
  | some idx =>
    let nr1 := nr_nodes - 1
    nodes.take idx ++ ((nodes.drop (idx + 1)).take (nr1 - idx)) ++ nodes.drop nr1

/-- The index of the first entry whose `gone` flag is clear — the scan of the
loop in `is_master` (corosync.c:254).  Like `List.findIdx`, returns the list
length when every entry is tombstoned. -/
def first_not_gone : List cpg_node → Nat
  | [] => 0
  | c :: cs => if c.gone then first_not_gone cs + 1 else 0

/-- Model of `is_master` (corosync.c:244): `0` when `nr_cpg_nodes == 0`; otherwise the
loop scans the whole `cpg_nodes[SD_MAX_NODES]` array (not only the first
`nr_cpg_nodes` slots) for the first entry with `gone` clear and compares it
against `node`, returning its index on equality and `-1` otherwise.  The
`node == NULL` defaulting to `&this_node` is resolved at the call sites. -/
def is_master (arr : List cpg_node) (nr_cpg_nodes : Nat) (node : cpg_node) : Int :=
  if nr_cpg_nodes = 0 then 0
  else
    let i := first_not_gone arr
    if i < arr.length then
      if cpg_node_equal (arr.getD i zero_node) node then (i : Int) else -1
    else -1

/-- Model of `build_node_list` (corosync.c:266): the `ent` descriptors of the first
`nr_nodes` entries. -/
def build_node_list (nodes : List cpg_node) (nr_nodes : Nat) : List Nat :=
  (nodes.take nr_nodes).map (fun c => c.ent)

/-- The roster proper: the first `nr` slots of the node array. -/
def rosterOf (arr : List cpg_node) (nr : Nat) : List cpg_node :=
  arr.take nr

/-- Model of `enum corosync_event_type` (corosync.c:48); values 0..4 in order. -/
inductive corosync_event_type where
  | JOIN_REQUEST
  | JOIN_RESPONSE
  | LEAVE
  | BLOCK
  | NOTIFY
deriving DecidableEq

/-- Model of `enum corosync_message_type` (corosync.c:57); values 0..5 in order.
Note the order differs from the event enum: `NOTIFY = 3`, `BLOCK = 4`. -/
inductive corosync_message_type where
  | JOIN_REQUEST
  | JOIN_RESPONSE
  | LEAVE
  | NOTIFY
  | BLOCK
  | UNBLOCK
deriving DecidableEq

/-- Modelled from the spec: `enum cluster_join_result` comes from the header
`cluster.h`, which is not part of the shown source.  Spec §4.2 gives exactly
the four results `SUCCESS = 0`, `FAIL = 1`, `JOIN_LATER = 2`,
`MASTER_TRANSFER = 3` (the source refers to them as `CJ_RES_*`). -/
inductive cluster_join_result where
  | SUCCESS
  | FAIL
  | JOIN_LATER
  | MASTER_TRANSFER
deriving DecidableEq

/-- Model of `struct corosync_event` (corosync.c:66).  `msg` is `none` for a `NULL`
payload pointer; `nodes` holds the valid prefix of the embedded roster
snapshot array (the rest of that array is zero and never read: the snapshot
is consumed only through its first `nr_nodes` entries). -/
structure corosync_event where
  type : corosync_event_type
  sender : cpg_node
  msg : Option (List Nat)
  msg_len : Nat
  result : cluster_join_result
  nr_nodes : Nat
  nodes : List cpg_node
  callbacked : Bool
deriving DecidableEq

instance : Inhabited corosync_event :=
  ⟨⟨.JOIN_REQUEST, zero_node, none, 0, .SUCCESS, 0, [], false⟩⟩

/-- Model of `struct corosync_message` (corosync.c:82), the wire envelope.  `nodes`
holds the `nr_nodes` valid entries (the codec guarantees
`nr_nodes ≤ SD_MAX_NODES` and that the frame is large enough, spec §4.2). -/
structure corosync_message where
  sender : cpg_node
  type : corosync_message_type
  result : cluster_join_result
  msg_len : Nat
  nr_nodes : Nat
  nodes : List cpg_node
  msg : List Nat
deriving DecidableEq

/-- The mutable globals of corosync.c except the queues: the node array with
its count (corosync.c:40-41), `this_node`, and the three flags/counters. -/
structure CoreState where
  cpg_nodes : List cpg_node
  nr_cpg_nodes : Nat
  this_node : cpg_node
  join_finished : Bool
  self_elect : Bool
  nr_majority : Nat
deriving DecidableEq

/-- One recorded invocation of a host upcall, with the arguments the C code
passes (`&cevent->sender.ent` is recorded as the `ent` value). -/
inductive Upcall where
  | check_join (ent : Nat) (msg : List Nat)
  | join_handler (ent : Nat) (entries : List Nat) (nr_nodes : Nat)
      (result : cluster_join_result) (msg : Option (List Nat))
  | leave_handler (ent : Nat) (entries : List Nat) (nr_nodes : Nat)
  | block_handler (ent : Nat)
  | notify_handler (ent : Nat) (msg : Option (List Nat)) (msg_len : Nat)
deriving DecidableEq

/-- The host side of the upcall interface: the two callbacks whose return
value the driver consumes. -/
structure HostCallbacks where
  check_join : Nat → List Nat → cluster_join_result
  block_accept : Nat → Bool

/-- Result of `__corosync_dispatch_one`: the C bool, the (possibly mutated
in place) event, the mutated globals, and the recorded effects.  `exited`
models the `exit(1)` on `CJ_RES_MASTER_TRANSFER`. -/
structure DispatchOneRes where
  processed : Bool
  cevent : corosync_event
  core : CoreState
  upcalls : List Upcall
  sent : List corosync_message
  exited : Bool
deriving DecidableEq

/-- Model of `__corosync_dispatch_one` (corosync.c:280).  Returns `processed = true`
iff the C function returns true (the caller then unlinks and frees the
event). -/
def __corosync_dispatch_one (cb : HostCallbacks) (core : CoreState)
    (cevent : corosync_event) : DispatchOneRes :=
  match cevent.type with
  | .JOIN_REQUEST =>
    if is_master core.cpg_nodes core.nr_cpg_nodes core.this_node < 0 then
      ⟨false, cevent, core, [], [], false⟩
    else
      match cevent.msg with
      | none =>
        -- we haven't received JOIN_REQUEST yet
        ⟨false, cevent, core, [], [], false⟩
      | some m =>
        if cevent.callbacked then
          -- check_join() must be called only once
          ⟨false, cevent, core, [], [], false⟩
        else
          let res := cb.check_join cevent.sender.ent m
          let core1 :=
            if res = .MASTER_TRANSFER then { core with nr_cpg_nodes := 0 } else core
          let smsg : corosync_message :=
            ⟨cevent.sender, .JOIN_RESPONSE, res, cevent.msg_len, core1.nr_cpg_nodes,
              core1.cpg_nodes.take core1.nr_cpg_nodes, m⟩
          if res = .MASTER_TRANSFER then
            -- "failed to join sheepdog cluster: please retry when master is up"
            ⟨false, cevent, core1, [.check_join cevent.sender.ent m], [smsg], true⟩
          else
            ⟨false, { cevent with callbacked := true }, core1,
              [.check_join cevent.sender.ent m], [smsg], false⟩
  | .JOIN_RESPONSE =>
    match cevent.result with
    | .FAIL =>
      ⟨true, cevent, core,
        [.join_handler cevent.sender.ent
          (build_node_list core.cpg_nodes core.nr_cpg_nodes)
          core.nr_cpg_nodes .FAIL cevent.msg], [], false⟩
    | r =>
      -- SUCCESS / MASTER_TRANSFER / JOIN_LATER fall through the FAIL case
      let nodes1 := add_cpg_node core.cpg_nodes core.nr_cpg_nodes cevent.sender
      let core1 := { core with cpg_nodes := nodes1, nr_cpg_nodes := core.nr_cpg_nodes + 1 }
      ⟨true, cevent, core1,
        [.join_handler cevent.sender.ent
          (build_node_list core1.cpg_nodes core1.nr_cpg_nodes)
          core1.nr_cpg_nodes r cevent.msg], [], false⟩
  | .LEAVE =>
    match find_cpg_node core.cpg_nodes core.nr_cpg_nodes cevent.sender with
    | none => ⟨true, cevent, core, [], [], false⟩
    | some idx =>
      let sender1 := { cevent.sender with ent := (core.cpg_nodes.getD idx zero_node).ent }
      let cevent1 := { cevent with sender := sender1 }
      let nodes1 := del_cpg_node core.cpg_nodes core.nr_cpg_nodes sender1
      let core1 := { core with cpg_nodes := nodes1, nr_cpg_nodes := core.nr_cpg_nodes - 1 }
      ⟨true, cevent1, core1,
        [.leave_handler sender1.ent
          (build_node_list core1.cpg_nodes core1.nr_cpg_nodes)
          core1.nr_cpg_nodes], [], false⟩
  | .BLOCK =>
    if cevent.callbacked then
      -- block events until the unblock message removes this event
      ⟨false, cevent, core, [], [], false⟩
    else
      ⟨false, { cevent with callbacked := cb.block_accept cevent.sender.ent }, core,
        [.block_handler cevent.sender.ent], [], false⟩
  | .NOTIFY =>
    ⟨true, cevent, core,
      [.notify_handler cevent.sender.ent cevent.msg cevent.msg_len], [], false⟩

/-- Outcome of one iteration of the drain loop of `__corosync_dispatch`
on the selected head event: `ret` models `return` (the event, possibly
mutated in place, stays at the head of its queue; `exited` marks `exit(1)`),
`del` models falling through to `list_del`/`free` (the event is removed). -/
inductive BodyRes where
  | ret (cevent : corosync_event) (core : CoreState)
      (upcalls : List Upcall) (sent : List corosync_message) (exited : Bool)
  | del (core : CoreState) (upcalls : List Upcall) (sent : List corosync_message)
deriving DecidableEq

/-- The body of the drain loop of `__corosync_dispatch` (corosync.c:391-430)
for the selected head event: the pre-join status update, then either
`__corosync_dispatch_one` or the pre-join gate.

The pre-join gate (corosync.c:419-425) switches on `cevent->type` — an
`enum corosync_event_type` — but its case labels are
`COROSYNC_MSG_TYPE_JOIN_REQUEST` (= 0) and `COROSYNC_MSG_TYPE_BLOCK` (= 4)
from `enum corosync_message_type`.  As event-type values, 0 is
`JOIN_REQUEST` and 4 is `NOTIFY`, so the events that stay queued pre-join
are JOIN_REQUEST and NOTIFY; LEAVE, BLOCK and other senders' JOIN_RESPONSE
events fall through to `list_del` and are removed unprocessed. -/
def dispatch_body (cb : HostCallbacks) (core : CoreState)
    (cevent : corosync_event) : BodyRes :=
  let core1 :=
    if core.join_finished then core
    else
      match cevent.type with
      | .JOIN_REQUEST =>
        if core.self_elect then
          { core with join_finished := true, nr_cpg_nodes := 0 }
        else core
      | .JOIN_RESPONSE =>
        if cpg_node_equal cevent.sender core.this_node then
          let snap := cevent.nodes.take cevent.nr_nodes
          { core with
            join_finished := true
            nr_cpg_nodes := cevent.nr_nodes
            cpg_nodes := snap ++ core.cpg_nodes.drop snap.length }
        else core
      | _ => core
  if core1.join_finished then
    let r := __corosync_dispatch_one cb core1 cevent
    if r.exited then .ret r.cevent r.core r.upcalls r.sent true
    else if r.processed then .del r.core r.upcalls r.sent
    else .ret r.cevent r.core r.upcalls r.sent false
  else
    match cevent.type with
    | .JOIN_REQUEST => .ret cevent core1 [] [] false
    | .NOTIFY => .ret cevent core1 [] [] false
    | _ => .del core1 [] []

/-- Result of draining the queues: final queues and globals plus the
accumulated effects. -/
structure DispatchRes where
  nonblock_list : List corosync_event
  block_list : List corosync_event
  core : CoreState
  upcalls : List Upcall
  sent : List corosync_message
  exited : Bool
deriving DecidableEq

/-- Prepend effects recorded before a recursive drain step. -/
def prependRes (ups : List Upcall) (snds : List corosync_message)
    (r : DispatchRes) : DispatchRes :=
  { r with upcalls := ups ++ r.upcalls, sent := snds ++ r.sent }

/-- The drain loop of `__corosync_dispatch` (corosync.c:382-431), written
with an explicit iteration budget so that it is structurally recursive:
while a queue is non-empty, the head of the non-block queue is selected when
that queue is non-empty, otherwise the head of the block queue; the body
then either returns (event kept) or deletes the event and the loop
continues.  Every continuing iteration removes exactly one event, so the
loop makes at most `nb.length + bl.length` continuing iterations;
`__corosync_dispatch_go` below supplies exactly that budget, and
`dispatch_steps_fuel` proves the budget is irrelevant beyond it. -/
def dispatch_steps (cb : HostCallbacks) :
    Nat → List corosync_event → List corosync_event → CoreState → DispatchRes
  | _, [], [], core => ⟨[], [], core, [], [], false⟩
  | 0, nb, bl, core => ⟨nb, bl, core, [], [], false⟩
  | fuel + 1, cevent :: rest, bl, core =>
    match dispatch_body cb core cevent with
    | .ret c1 core1 ups snds ex => ⟨c1 :: rest, bl, core1, ups, snds, ex⟩
    | .del core1 ups snds =>
      prependRes ups snds (dispatch_steps cb fuel rest bl core1)
  | fuel + 1, [], cevent :: rest, core =>
    match dispatch_body cb core cevent with
    | .ret c1 core1 ups snds ex => ⟨[], c1 :: rest, core1, ups, snds, ex⟩
    | .del core1 ups snds =>
      prependRes ups snds (dispatch_steps cb fuel [] rest core1)

/-- The drain loop of `__corosync_dispatch` (corosync.c:382-431). -/
def __corosync_dispatch_go (cb : HostCallbacks)
    (nb bl : List corosync_event) (core : CoreState) : DispatchRes :=
  dispatch_steps cb (nb.length + bl.length) nb bl core

/-- The full driver state: the two event queues (corosync.c:37-38) plus the
other globals. -/
structure CorosyncState where
  corosync_block_event_list : List corosync_event
  corosync_nonblock_event_list : List corosync_event
  core : CoreState
deriving DecidableEq

/-- Result of one GCS callback (deliver or confchg): new state, recorded
effects, and a fatal marker (`panic` message or `"exit(1)"`). -/
structure StepRes where
  st : CorosyncState
  upcalls : List Upcall
  sent : List corosync_message
  fatal : Option String
deriving DecidableEq

/-- Model of `__corosync_dispatch` (corosync.c:361): if `poll` reports pending input
(`pending = true`) return without touching anything; otherwise reset
`nr_majority` and drain. -/
def __corosync_dispatch (cb : HostCallbacks) (pending : Bool)
    (st : CorosyncState) : StepRes :=
  if pending then ⟨st, [], [], none⟩
  else
    let core0 := { st.core with nr_majority := 0 }
    let r := __corosync_dispatch_go cb st.corosync_nonblock_event_list
      st.corosync_block_event_list core0
    ⟨{ corosync_block_event_list := r.block_list
       corosync_nonblock_event_list := r.nonblock_list
       core := r.core },
      r.upcalls, r.sent, if r.exited then some "exit(1)" else none⟩

/-- Does `cevent` match the `(type, sender)` key used by
`find_block_event`/`find_nonblock_event` (corosync.c:207-233)? -/
def event_matches (type : corosync_event_type) (sender : cpg_node)
    (e : corosync_event) : Bool :=
  decide (e.type = type) && cpg_node_equal e.sender sender

/-- Replace the first element satisfying `p` by `f` of it (`none` when no
element matches): the in-place mutation of the event found by `find_event`. -/
def update_first (p : α → Bool) (f : α → α) : List α → Option (List α)
  | [] => none
  | x :: xs => if p x then some (f x :: xs) else (update_first p f xs).map (x :: ·)

/-- Remove the first element satisfying `p` (`none` when no element
matches): `list_del` of the event found by `find_event`. -/
def erase_first (p : α → Bool) : List α → Option (List α)
  | [] => none
  | x :: xs => if p x then some xs else (erase_first p xs).map (x :: ·)

/-- Model of `find_event` (corosync.c:235): BLOCK events live on the block queue,
everything else on the non-block queue. -/
def find_event (st : CorosyncState) (type : corosync_event_type)
    (sender : cpg_node) : Option corosync_event :=
  if type = .BLOCK then
    st.corosync_block_event_list.find? (event_matches type sender)
  else
    st.corosync_nonblock_event_list.find? (event_matches type sender)

/-- The payload-refresh part of `update_event` (corosync.c:445-454): set
`msg_len`;); a zero length frees the payload (`msg = NULL`), otherwise the
first `msg_len` bytes are copied. -/
def update_event_msg (msg : List Nat) (msg_len : Nat) (e : corosync_event) :
    corosync_event :=
  { e with msg_len := msg_len
           msg := if msg_len = 0 then none else some (msg.take msg_len) }

/-- A fresh `xzalloc`ed event for message `cmsg` (corosync.c:499-513 and
516-534): all fields zero except those assigned (`result` zero is
`CJ_RES_SUCCESS`, `callbacked` zero is false). -/
def mk_new_event (t : corosync_event_type) (cmsg : corosync_message) :
    corosync_event :=
  { type := t
    sender := cmsg.sender
    msg := if cmsg.msg_len = 0 then none else some (cmsg.msg.take cmsg.msg_len)
    msg_len := cmsg.msg_len
    result := .SUCCESS
    nr_nodes := 0
    nodes := []
    callbacked := false }

/-- Model of `queue_event` (corosync.c:459): BLOCK events to the block queue,
everything else to the non-block queue; both FIFO (`list_add_tail`). -/
def queue_event (st : CorosyncState) (cevent : corosync_event) : CorosyncState :=
  if cevent.type = .BLOCK then
    { st with corosync_block_event_list :=
        st.corosync_block_event_list ++ [cevent] }
  else
    { st with corosync_nonblock_event_list :=
        st.corosync_nonblock_event_list ++ [cevent] }

/-- Mark slot `i` of the node array `gone` (corosync.c:526 and 639). -/
def mark_gone (core : CoreState) (i : Nat) : CoreState :=
  { core with cpg_nodes :=
      core.cpg_nodes.set i { core.cpg_nodes.getD i zero_node with gone := true } }

/-- The queue/state mutations of `cdrv_cpg_deliver` (corosync.c:467-551),
i.e. everything before the final `__corosync_dispatch()` call.

* `JOIN_REQUEST`: `update_event` on the pending JOIN_REQUEST event (payload
  refresh), then `cevent->sender = cmsg->sender`; dropped if no such event.
* `UNBLOCK`: `update_event` finds the matching BLOCK event and it is
  unlinked and freed; then the branch FALLS THROUGH to the BLOCK/NOTIFY
  allocation below, with `cmsg->type != COROSYNC_MSG_TYPE_BLOCK`, so a fresh
  NOTIFY event carrying the UNBLOCK payload is always queued.
* `BLOCK`/`NOTIFY`: allocate and queue a fresh event of that kind.
* `LEAVE`: allocate a LEAVE event; if the sender is the current master its
  roster slot is tombstoned immediately; queue the event.
* `JOIN_RESPONSE`: `update_event` on the pending JOIN_REQUEST event, then
  mutate it into a JOIN_RESPONSE carrying result and roster snapshot;
  dropped if no such event. -/
def cdrv_cpg_deliver_intake (cmsg : corosync_message) (st : CorosyncState) :
    CorosyncState :=
  match cmsg.type with
  | .JOIN_REQUEST =>
    match update_first (event_matches .JOIN_REQUEST cmsg.sender)
        (fun e => { update_event_msg cmsg.msg cmsg.msg_len e with sender := cmsg.sender })
        st.corosync_nonblock_event_list with
    | none => st
    | some nb => { st with corosync_nonblock_event_list := nb }
  | .UNBLOCK =>
    let st1 :=
      match erase_first (event_matches .BLOCK cmsg.sender)
          st.corosync_block_event_list with
      | none => st
      | some bl => { st with corosync_block_event_list := bl }
    queue_event st1 (mk_new_event .NOTIFY cmsg)
  | .BLOCK => queue_event st (mk_new_event .BLOCK cmsg)
  | .NOTIFY => queue_event st (mk_new_event .NOTIFY cmsg)
  | .LEAVE =>
    let m := is_master st.core.cpg_nodes st.core.nr_cpg_nodes cmsg.sender
    let st1 := if m < 0 then st else { st with core := mark_gone st.core m.toNat }
    queue_event st1 (mk_new_event .LEAVE cmsg)
  | .JOIN_RESPONSE =>
    match update_first (event_matches .JOIN_REQUEST cmsg.sender)
        (fun e =>
          { update_event_msg cmsg.msg cmsg.msg_len e with
            type := .JOIN_RESPONSE
            result := cmsg.result
            nr_nodes := cmsg.nr_nodes
            nodes := cmsg.nodes.take cmsg.nr_nodes })
        st.corosync_nonblock_event_list with
    | none => st
    | some nb => { st with corosync_nonblock_event_list := nb }

/-- Model of `cdrv_cpg_deliver` (corosync.c:467): intake then dispatch. -/
def cdrv_cpg_deliver (cb : HostCallbacks) (pending : Bool)
    (cmsg : corosync_message) (st : CorosyncState) : StepRes :=
  __corosync_dispatch cb pending (cdrv_cpg_deliver_intake cmsg st)

/-- The network-partition guard of `cdrv_cpg_confchg` (corosync.c:586-603):
given the current `nr_majority` and the member/left counts, returns the new
`nr_majority` and the panic message, if any. -/
def confchg_guard (nr_majority member_list_entries left_list_entries : Nat) :
    Nat × Option String :=
  if left_list_entries ≠ 0 then
    let nrm :=
      if nr_majority = 0 then
        if member_list_entries + left_list_entries > 2 then
          (member_list_entries + left_list_entries) / 2 + 1
        else nr_majority
      else nr_majority
    if member_list_entries = 0 then (nrm, some "NIC failure?")
    else if member_list_entries < nrm then
      (nrm, some "Network partition is detected")
    else (nrm, none)
  else (nr_majority, none)

/-- One iteration of the left-list loop of `cdrv_cpg_confchg`
(corosync.c:611-645): a pending JOIN_REQUEST for the departed node is
dropped (the node left before joining — `continue`, no LEAVE event);
otherwise a pending BLOCK is dropped, the departed master's slot is
tombstoned, and a LEAVE event is queued. -/
def confchg_left_one (st : CorosyncState) (node : cpg_node) : CorosyncState :=
  match erase_first (event_matches .JOIN_REQUEST node)
      st.corosync_nonblock_event_list with
  | some nb => { st with corosync_nonblock_event_list := nb }
  | none =>
    let st1 :=
      match erase_first (event_matches .BLOCK node) st.corosync_block_event_list with
      | some bl => { st with corosync_block_event_list := bl }
      | none => st
    let m := is_master st1.core.cpg_nodes st1.core.nr_cpg_nodes node
    let st2 := if m < 0 then st1 else { st1 with core := mark_gone st1.core m.toNat }
    queue_event st2
      { type := .LEAVE
        sender := node
        msg := none
        msg_len := 0
        result := .SUCCESS
        nr_nodes := 0
        nodes := []
        callbacked := false }

/-- One iteration of the joined-list loop of `cdrv_cpg_confchg`
(corosync.c:648-653): queue a placeholder JOIN_REQUEST event. -/
def confchg_joined_one (st : CorosyncState) (node : cpg_node) : CorosyncState :=
  queue_event st
    { type := .JOIN_REQUEST
      sender := node
      msg := none
      msg_len := 0
      result := .SUCCESS
      nr_nodes := 0
      nodes := []
      callbacked := false }

/-- The self-promotion scan of `cdrv_cpg_confchg` (corosync.c:660-669):
true iff every member has a queued JOIN_REQUEST event. -/
def promote_check (st : CorosyncState) (member : List cpg_node) : Bool :=
  member.all (fun n => (find_event st .JOIN_REQUEST n).isSome)

/-- Model of `build_cpg_node_list` (corosync.c:556): a `cpg_address` carries only
`(nodeid, pid)`; the `gone`/`ent` fields of the stack-local `cpg_node`s are
never read before being assigned, so they are modelled as zero. -/
def addr_to_node (a : Nat × Nat) : cpg_node :=
  ⟨a.1, a.2, false, 0⟩

/-- The state mutations of `cdrv_cpg_confchg` (corosync.c:567-677) —
everything before the final `__corosync_dispatch()` call.  Returns the
mutated state and the panic message of the partition guard, if any (a panic
aborts the callback at once). -/
def cdrv_cpg_confchg_intake (member_addrs joined_addrs left_addrs : List (Nat × Nat))
    (st : CorosyncState) : CorosyncState × Option String :=
  let member_sheep := member_addrs.map addr_to_node
  let joined_sheep := joined_addrs.map addr_to_node
  let left_sheep := left_addrs.map addr_to_node
  let g := confchg_guard st.core.nr_majority member_addrs.length left_addrs.length
  let st0 := { st with core := { st.core with nr_majority := g.1 } }
  match g.2 with
  | some s => (st0, some s)
  | none =>
    let st1 := left_sheep.foldl confchg_left_one st0
    let st2 := joined_sheep.foldl confchg_joined_one st1
    let st3 :=
      if st2.core.join_finished then st2
      else if promote_check st2 member_sheep then
        { st2 with core := { st2.core with self_elect := true } }
      else st2
    (st3, none)

/-- Model of `cdrv_cpg_confchg` (corosync.c:567): intake (with possible panic),
then dispatch. -/
def cdrv_cpg_confchg (cb : HostCallbacks) (pending : Bool)
    (member_addrs joined_addrs left_addrs : List (Nat × Nat))
    (st : CorosyncState) : StepRes :=
  let r := cdrv_cpg_confchg_intake member_addrs joined_addrs left_addrs st
  match r.2 with
  | some s => ⟨r.1, [], [], some s⟩
  | none => __corosync_dispatch cb pending r.1

/-- One GCS callback delivered to the driver, with the state of the
readiness indicator (`poll`) that the subsequent dispatch will observe. -/
inductive SysCall where
  | deliver (pending : Bool) (cmsg : corosync_message)
  | confchg (pending : Bool) (member joined left : List (Nat × Nat))

/-- Result of a run: final state, effect traces, and the first fatal
condition hit (panic or exit), if any. -/
structure RunRes where
  st : CorosyncState
  upcalls : List Upcall
  sent : List corosync_message
  fatal : Option String
deriving DecidableEq

/-- Run a sequence of GCS callbacks from a state; a fatal step terminates
the run (the process is gone). -/
def run_calls (cb : HostCallbacks) : List SysCall → CorosyncState → RunRes
  | [], st => ⟨st, [], [], none⟩
  | c :: cs, st =>
    let r :=
      match c with
      | .deliver p m => cdrv_cpg_deliver cb p m st
      | .confchg p mem j l => cdrv_cpg_confchg cb p mem j l st
    match r.fatal with
    | some s => ⟨r.st, r.upcalls, r.sent, some s⟩
    | none =>
      let rest := run_calls cb cs r.st
      ⟨rest.st, r.upcalls ++ rest.upcalls, r.sent ++ rest.sent, rest.fatal⟩

/-- The driver's state right after `corosync_init` + `corosync_join`:
empty queues, zeroed static node array, all flags clear. -/
def init_state (this_node : cpg_node) : CorosyncState :=
  { corosync_block_event_list := []
    corosync_nonblock_event_list := []
    core :=
      { cpg_nodes := List.replicate SD_MAX_NODES zero_node
        nr_cpg_nodes := 0
        this_node := this_node
        join_finished := false
        self_elect := false
        nr_majority := 0 } }

/-! ## Properties of the drain loop -/

/-- The iteration budget is irrelevant beyond `nb.length + bl.length`:
every continuing iteration removes one event. -/
theorem dispatch_steps_fuel (cb : HostCallbacks) :
    ∀ (fuel : Nat) (nb bl : List corosync_event) (core : CoreState),
      nb.length + bl.length ≤ fuel →
      dispatch_steps cb fuel nb bl core =
        dispatch_steps cb (nb.length + bl.length) nb bl core := by
  intro fuel
  induction fuel with
  | zero =>
    intro nb bl core h
    have hnb : nb = [] := by
      cases nb with
      | nil => rfl
      | cons a t => simp at h
    have hbl : bl = [] := by
      cases bl with
      | nil => rfl
      | cons a t => simp at h
    subst hnb; subst hbl; rfl
  | succ n ih =>
    intro nb bl core h
    cases nb with
    | nil =>
      cases bl with
      | nil => rfl
      | cons c rest =>
        simp only [List.length_nil, List.length_cons, Nat.zero_add] at h ⊢
        simp only [dispatch_steps]
        cases hb : dispatch_body cb core c with
        | ret c1 core1 ups snds ex => rfl
        | del core1 ups snds =>
          have h1 : List.length ([] : List corosync_event) + rest.length ≤ n := by
            simpa using Nat.le_of_succ_le_succ h
          show prependRes ups snds (dispatch_steps cb n [] rest core1) =
            prependRes ups snds (dispatch_steps cb rest.length [] rest core1)
          rw [ih [] rest core1 h1]
          simp
    | cons c rest =>
      simp only [List.length_cons] at h
      rw [List.length_cons, Nat.add_right_comm]
      simp only [dispatch_steps]
      cases hb : dispatch_body cb core c with
      | ret c1 core1 ups snds ex => rfl
      | del core1 ups snds =>
        have h1 : rest.length + bl.length ≤ n := by omega
        show prependRes ups snds (dispatch_steps cb n rest bl core1) =
          prependRes ups snds (dispatch_steps cb (rest.length + bl.length) rest bl core1)
        rw [ih rest bl core1 h1]

/-- Unfolding the drain loop when the non-block queue is non-empty: the
iteration works on the head of the non-block queue and the block queue is
untouched by it. -/
theorem dispatch_go_cons_nb (cb : HostCallbacks) (cevent : corosync_event)
    (rest bl : List corosync_event) (core : CoreState) :
    __corosync_dispatch_go cb (cevent :: rest) bl core =
      match dispatch_body cb core cevent with
      | .ret c1 core1 ups snds ex => ⟨c1 :: rest, bl, core1, ups, snds, ex⟩
      | .del core1 ups snds =>
        prependRes ups snds (__corosync_dispatch_go cb rest bl core1) := by
  unfold __corosync_dispatch_go
  rw [List.length_cons, Nat.add_right_comm]
  simp only [dispatch_steps]

/-- Unfolding the drain loop when the non-block queue is empty and the block
queue is non-empty: the iteration works on the head of the block queue. -/
theorem dispatch_go_cons_bl (cb : HostCallbacks) (cevent : corosync_event)
    (rest : List corosync_event) (core : CoreState) :
    __corosync_dispatch_go cb [] (cevent :: rest) core =
      match dispatch_body cb core cevent with
      | .ret c1 core1 ups snds ex => ⟨[], c1 :: rest, core1, ups, snds, ex⟩
      | .del core1 ups snds =>
        prependRes ups snds (__corosync_dispatch_go cb [] rest core1) := by
  unfold __corosync_dispatch_go
  simp only [List.length_nil, List.length_cons, Nat.zero_add]
  simp only [dispatch_steps]

/-! ## Spec-side definitions and concrete fixtures -/

/-- The `(nodeid, pid)` pair — the NodeId of the spec. -/
def nodeIdOf (c : cpg_node) : Nat × Nat :=
  (c.nodeid, c.pid)

/-- The NodeIds of the roster (the first `nr_cpg_nodes` array slots). -/
def rosterIds (core : CoreState) : List (Nat × Nat) :=
  (rosterOf core.cpg_nodes core.nr_cpg_nodes).map nodeIdOf

/-- The NodeIds of the roster snapshot carried by a JOIN_RESPONSE event. -/
def snapIds (e : corosync_event) : List (Nat × Nat) :=
  (e.nodes.take e.nr_nodes).map nodeIdOf

/-- Following the claim/spec wording for `is_master` (spec §4.4): the index
of `node` in the roster if it is the first roster entry whose `gone` flag is
false, "not master" (negative) otherwise; `0` for the empty roster. -/
def is_master_claim (roster : List cpg_node) (node : cpg_node) : Int :=
  if roster.length = 0 then 0
  else
    let i := first_not_gone roster
    if i < roster.length then
      if cpg_node_equal (roster.getD i zero_node) node then (i : Int) else -1
    else -1

/-- The core state produced by one loop-body iteration, whether the event is
kept (`ret`) or removed (`del`). -/
def bodyCore : BodyRes → CoreState
  | .ret _ core _ _ _ => core
  | .del core _ _ => core

/-- A concrete host: every join check succeeds, every block is accepted. -/
def cb0 : HostCallbacks :=
  ⟨fun _ _ => .SUCCESS, fun _ => true⟩

/-- Concrete nodes for witnesses and counterexamples. -/
def nodeA : cpg_node := ⟨1, 1, false, 10⟩

def nodeB : cpg_node := ⟨2, 2, false, 20⟩

def nodeC : cpg_node := ⟨3, 3, false, 30⟩

/-! ## C9 — drain-loop priority -/

/-- C9: on every iteration of the drain loop, while at least one queue is
non-empty, the event selected for processing is the head of the non-block
queue whenever that queue is non-empty (the block queue is not touched by
the iteration), and the head of the block queue only when the non-block
queue is empty. -/
theorem C9_drain_priority :
    (∀ (cb : HostCallbacks) (cevent : corosync_event)
       (rest bl : List corosync_event) (core : CoreState),
      __corosync_dispatch_go cb (cevent :: rest) bl core =
        match dispatch_body cb core cevent with
        | .ret c1 core1 ups snds ex => ⟨c1 :: rest, bl, core1, ups, snds, ex⟩
        | .del core1 ups snds =>
          prependRes ups snds (__corosync_dispatch_go cb rest bl core1)) ∧
    (∀ (cb : HostCallbacks) (cevent : corosync_event)
       (rest : List corosync_event) (core : CoreState),
      __corosync_dispatch_go cb [] (cevent :: rest) core =
        match dispatch_body cb core cevent with
        | .ret c1 core1 ups snds ex => ⟨[], c1 :: rest, core1, ups, snds, ex⟩
        | .del core1 ups snds =>
          prependRes ups snds (__corosync_dispatch_go cb [] rest core1)) :=
  ⟨dispatch_go_cons_nb, dispatch_go_cons_bl⟩

/-! ## C3 — partition guard -/

/-- C3: for a membership-change callback with a non-empty left list, the
guard arms `nr_majority` to `total/2 + 1` exactly when it was `0` and
`total > 2`, and panics exactly when the member count is `0` ("NIC
failure?") or below the armed threshold ("Network partition is detected").
With 2 nodes and one leaving the threshold stays 0 and nothing aborts; with
3 nodes and 2 leaving the survivor aborts.  A guard panic is the fatal
outcome of `cdrv_cpg_confchg`. -/
theorem C3_partition_guard :
    (∀ (member left nrm : Nat), left ≠ 0 →
      ((confchg_guard nrm member left).1 =
        (if nrm = 0 ∧ member + left > 2 then (member + left) / 2 + 1 else nrm)) ∧
      (((confchg_guard nrm member left).2 ≠ none) ↔
        (member = 0 ∨ member < (confchg_guard nrm member left).1))) ∧
    confchg_guard 0 1 1 = (0, none) ∧
    confchg_guard 0 1 2 = (2, some "Network partition is detected") ∧
    (∀ (cb : HostCallbacks) (pending : Bool) (st : CorosyncState)
       (mem j l : List (Nat × Nat)) (s : String),
      (confchg_guard st.core.nr_majority mem.length l.length).2 = some s →
      (cdrv_cpg_confchg cb pending mem j l st).fatal = some s) := by
  refine ⟨?_, rfl, rfl, ?_⟩
  · intro member left nrm hl
    simp only [confchg_guard, if_pos hl]
    constructor
    · split_ifs <;> simp_all <;> omega
    · split_ifs <;> simp_all <;> omega
  · intro cb pending st mem j l s hg
    simp [cdrv_cpg_confchg, cdrv_cpg_confchg_intake, hg]

/-- Witness for C3: the hypotheses are satisfiable — e.g. one of three
nodes surviving a split aborts, and the guard panic propagates out of
`cdrv_cpg_confchg`. -/
theorem C3_partition_guard_witness :
    (((confchg_guard 0 1 2).2 ≠ none) ↔ (1 = 0 ∨ 1 < (confchg_guard 0 1 2).1)) ∧
    (cdrv_cpg_confchg cb0 false [(3, 3)] [] [(1, 1), (2, 2)]
        (init_state nodeC)).fatal = some "Network partition is detected" :=
  ⟨(C3_partition_guard.1 1 2 0 (by decide)).2,
    C3_partition_guard.2.2.2 cb0 false (init_state nodeC) [(3, 3)] []
      [(1, 1), (2, 2)] "Network partition is detected" (by decide)⟩

/-! ## Helper list lemmas -/

/-- Appending at slot `n` (in-bounds) extends the first `n + 1` slots by the
new entry. -/
theorem take_succ_set_eq (l : List α) (n : Nat) (a : α) (h : n < l.length) :
    (l.set n a).take (n + 1) = l.take n ++ [a] := by
  induction l generalizing n with
  | nil => simp at h
  | cons x xs ih =>
    cases n with
    | zero => simp
    | succ m =>
      simp only [List.set, List.take, List.cons_append, List.cons.injEq, true_and]
      exact ih m (by simpa using h)

/-! ## C10 — LEAVE for an unknown sender -/

/-- C10: processing a LEAVE event whose sender has no roster entry with an
equal NodeId removes the event without invoking `leave_completed`, leaving
the roster (array and count) unchanged: `__corosync_dispatch_one` reports
the event processed with no upcalls and an unchanged core, and the drain
loop then deletes the event and continues on the very same state. -/
theorem C10_leave_unknown_sender :
    ∀ (cb : HostCallbacks) (core : CoreState) (cevent : corosync_event),
      cevent.type = .LEAVE →
      find_cpg_node core.cpg_nodes core.nr_cpg_nodes cevent.sender = none →
      __corosync_dispatch_one cb core cevent = ⟨true, cevent, core, [], [], false⟩ ∧
      (core.join_finished = true →
        ∀ (rest bl : List corosync_event),
          __corosync_dispatch_go cb (cevent :: rest) bl core =
            __corosync_dispatch_go cb rest bl core) := by
  intro cb core cevent ht hf
  have h1 : __corosync_dispatch_one cb core cevent = ⟨true, cevent, core, [], [], false⟩ := by
    simp [__corosync_dispatch_one, ht, hf]
  refine ⟨h1, ?_⟩
  intro hjf rest bl
  rw [dispatch_go_cons_nb]
  have hb : dispatch_body cb core cevent = .del core [] [] := by
    simp [dispatch_body, hjf, h1]
  rw [hb]
  simp [prependRes]

/-- Concrete fixtures for the C10 witness: a LEAVE from a node that is not
in the (empty) roster of a joined node. -/
def coreW10 : CoreState :=
  { (init_state nodeA).core with join_finished := true }

def evW10 : corosync_event :=
  { type := .LEAVE, sender := nodeB, msg := none, msg_len := 0,
    result := .SUCCESS, nr_nodes := 0, nodes := [], callbacked := false }

/-- Witness for C10 at a concrete input. -/
theorem C10_leave_unknown_sender_witness :
    __corosync_dispatch_one cb0 coreW10 evW10 = ⟨true, evW10, coreW10, [], [], false⟩ ∧
    __corosync_dispatch_go cb0 [evW10] [] coreW10 = __corosync_dispatch_go cb0 [] [] coreW10 :=
  have h := C10_leave_unknown_sender cb0 coreW10 evW10 rfl (by decide)
  ⟨h.1, h.2 rfl [] []⟩

/-! ## C7 — check_join at most once per JOIN_REQUEST event -/

/-- C7: for a JOIN_REQUEST event, a dispatch step with `callbacked` already
true is a complete no-op (no upcall, nothing changed, the drain stops with
the event still at the head of its queue); whenever `check_join` is invoked
the event comes back with `callbacked = true` — except on MASTER_TRANSFER,
where the process exits — and a single step never invokes more than one
upcall.  Together these give "at most one `check_join` per event". -/
theorem C7_check_join_once :
    ∀ (cb : HostCallbacks) (core : CoreState) (cevent : corosync_event),
      cevent.type = .JOIN_REQUEST →
      (cevent.callbacked = true →
        __corosync_dispatch_one cb core cevent = ⟨false, cevent, core, [], [], false⟩) ∧
      (∀ en m, .check_join en m ∈ (__corosync_dispatch_one cb core cevent).upcalls →
        (__corosync_dispatch_one cb core cevent).cevent.callbacked = true ∨
        (__corosync_dispatch_one cb core cevent).exited = true) ∧
      (__corosync_dispatch_one cb core cevent).upcalls.length ≤ 1 ∧
      (core.join_finished = true → cevent.callbacked = true →
        ∀ (rest bl : List corosync_event),
          __corosync_dispatch_go cb (cevent :: rest) bl core =
            ⟨cevent :: rest, bl, core, [], [], false⟩) := by
  intro cb core cevent ht
  have hstep :
      (cevent.callbacked = true →
        __corosync_dispatch_one cb core cevent = ⟨false, cevent, core, [], [], false⟩) ∧
      (∀ en m, .check_join en m ∈ (__corosync_dispatch_one cb core cevent).upcalls →
        (__corosync_dispatch_one cb core cevent).cevent.callbacked = true ∨
        (__corosync_dispatch_one cb core cevent).exited = true) ∧
      (__corosync_dispatch_one cb core cevent).upcalls.length ≤ 1 := by
    simp only [__corosync_dispatch_one, ht]
    rcases hmast : decide (is_master core.cpg_nodes core.nr_cpg_nodes core.this_node < 0) with _ | _
    · have hm : ¬ is_master core.cpg_nodes core.nr_cpg_nodes core.this_node < 0 := by
        simpa using hmast
      rcases hmsg : cevent.msg with _ | m
      · simp [hm, hmsg]
      · rcases hcb : cevent.callbacked with _ | _
        · rcases hres : cb.check_join cevent.sender.ent m with _ | _ | _ | _ <;>
            simp [hm, hmsg, hcb, hres]
        · simp [hm, hmsg, hcb]
    · have hm : is_master core.cpg_nodes core.nr_cpg_nodes core.this_node < 0 := by
        simpa using hmast
      simp [hm]
  refine ⟨hstep.1, hstep.2.1, hstep.2.2, ?_⟩
  intro hjf hcb rest bl
  rw [dispatch_go_cons_nb]
  have hb : dispatch_body cb core cevent = .ret cevent core [] [] false := by
    simp [dispatch_body, hjf, hstep.1 hcb]
  rw [hb]

/-- Concrete fixture for the C7 witness: an already-`callbacked`
JOIN_REQUEST event. -/
def evW7 : corosync_event :=
  { type := .JOIN_REQUEST, sender := nodeB, msg := some [7], msg_len := 1,
    result := .SUCCESS, nr_nodes := 0, nodes := [], callbacked := true }

/-- Witness for C7 at a concrete input. -/
theorem C7_check_join_once_witness :
    __corosync_dispatch_one cb0 coreW10 evW7 = ⟨false, evW7, coreW10, [], [], false⟩ ∧
    __corosync_dispatch_go cb0 [evW7] [] coreW10 = ⟨[evW7], [], coreW10, [], [], false⟩ :=
  have h := C7_check_join_once cb0 coreW10 evW7 rfl
  ⟨h.1 rfl, h.2.2.2 rfl rfl [] []⟩

/-! ## C6 — JOIN_RESPONSE processing -/

/-- C6: processing a JOIN_RESPONSE event appends the sender to the roster
(count up by exactly one, entry appended at the end) when the carried result
is SUCCESS, MASTER_TRANSFER or JOIN_LATER, leaves the roster untouched on
FAIL, and in all four cases invokes `join_completed` exactly once — with the
sender's descriptor, the descriptors of the (possibly updated) roster, the
result and the payload — reports the event processed, and the drain loop
then removes the event from its queue. -/
theorem C6_join_response :
    ∀ (cb : HostCallbacks) (core : CoreState) (cevent : corosync_event),
      cevent.type = .JOIN_RESPONSE →
      core.nr_cpg_nodes < core.cpg_nodes.length →
      (__corosync_dispatch_one cb core cevent).processed = true ∧
      (__corosync_dispatch_one cb core cevent).exited = false ∧
      (__corosync_dispatch_one cb core cevent).sent = [] ∧
      (cevent.result = .FAIL → (__corosync_dispatch_one cb core cevent).core = core) ∧
      (cevent.result ≠ .FAIL →
        (__corosync_dispatch_one cb core cevent).core.nr_cpg_nodes =
          core.nr_cpg_nodes + 1 ∧
        rosterOf (__corosync_dispatch_one cb core cevent).core.cpg_nodes
            (__corosync_dispatch_one cb core cevent).core.nr_cpg_nodes =
          rosterOf core.cpg_nodes core.nr_cpg_nodes ++ [cevent.sender]) ∧
      (__corosync_dispatch_one cb core cevent).upcalls =
        [.join_handler cevent.sender.ent
          (build_node_list (__corosync_dispatch_one cb core cevent).core.cpg_nodes
            (__corosync_dispatch_one cb core cevent).core.nr_cpg_nodes)
          (__corosync_dispatch_one cb core cevent).core.nr_cpg_nodes
          cevent.result cevent.msg] ∧
      (core.join_finished = true →
        ∀ (rest bl : List corosync_event),
          __corosync_dispatch_go cb (cevent :: rest) bl core =
            prependRes (__corosync_dispatch_one cb core cevent).upcalls []
              (__corosync_dispatch_go cb rest bl
                (__corosync_dispatch_one cb core cevent).core)) := by
  intro cb core cevent ht hlen
  have happ : rosterOf (add_cpg_node core.cpg_nodes core.nr_cpg_nodes cevent.sender)
      (core.nr_cpg_nodes + 1) =
      rosterOf core.cpg_nodes core.nr_cpg_nodes ++ [cevent.sender] := by
    simpa [rosterOf, add_cpg_node] using
      take_succ_set_eq core.cpg_nodes core.nr_cpg_nodes cevent.sender hlen
  have hmain :
      (__corosync_dispatch_one cb core cevent).processed = true ∧
      (__corosync_dispatch_one cb core cevent).exited = false ∧
      (__corosync_dispatch_one cb core cevent).sent = [] ∧
      (cevent.result = .FAIL → (__corosync_dispatch_one cb core cevent).core = core) ∧
      (cevent.result ≠ .FAIL →
        (__corosync_dispatch_one cb core cevent).core.nr_cpg_nodes =
          core.nr_cpg_nodes + 1 ∧
        rosterOf (__corosync_dispatch_one cb core cevent).core.cpg_nodes
            (__corosync_dispatch_one cb core cevent).core.nr_cpg_nodes =
          rosterOf core.cpg_nodes core.nr_cpg_nodes ++ [cevent.sender]) ∧
      (__corosync_dispatch_one cb core cevent).upcalls =
        [.join_handler cevent.sender.ent
          (build_node_list (__corosync_dispatch_one cb core cevent).core.cpg_nodes
            (__corosync_dispatch_one cb core cevent).core.nr_cpg_nodes)
          (__corosync_dispatch_one cb core cevent).core.nr_cpg_nodes
          cevent.result cevent.msg] := by
    rcases hres : cevent.result with _ | _ | _ | _ <;>
      simp [__corosync_dispatch_one, ht, hres, happ]
  refine ⟨hmain.1, hmain.2.1, hmain.2.2.1, hmain.2.2.2.1, hmain.2.2.2.2.1,
    hmain.2.2.2.2.2, ?_⟩
  intro hjf rest bl
  rw [dispatch_go_cons_nb]
  have hb : dispatch_body cb core cevent =
      .del (__corosync_dispatch_one cb core cevent).core
        (__corosync_dispatch_one cb core cevent).upcalls
        (__corosync_dispatch_one cb core cevent).sent := by
    simp [dispatch_body, hjf, hmain.1, hmain.2.1]
  rw [hb, hmain.2.2.1]

set_option maxRecDepth 20000

/-- Concrete fixture for the C6 witness: a successful JOIN_RESPONSE from a
second node arriving at a joined node with roster `[A]`. -/
def coreW6 : CoreState :=
  { cpg_nodes := nodeA :: List.replicate (SD_MAX_NODES - 1) zero_node
    nr_cpg_nodes := 1
    this_node := nodeA
    join_finished := true
    self_elect := true
    nr_majority := 0 }

def evW6 : corosync_event :=
  { type := .JOIN_RESPONSE, sender := nodeB, msg := some [7], msg_len := 1,
    result := .SUCCESS, nr_nodes := 1, nodes := [nodeA], callbacked := false }

/-- Witness for C6 at a concrete input: the roster grows from `[A]` to
`[A, B]` and `join_completed` fires once. -/
theorem C6_join_response_witness :
    (__corosync_dispatch_one cb0 coreW6 evW6).processed = true ∧
    rosterOf (__corosync_dispatch_one cb0 coreW6 evW6).core.cpg_nodes
        (__corosync_dispatch_one cb0 coreW6 evW6).core.nr_cpg_nodes =
      rosterOf coreW6.cpg_nodes coreW6.nr_cpg_nodes ++ [evW6.sender] ∧
    (__corosync_dispatch_one cb0 coreW6 evW6).upcalls =
      [.join_handler evW6.sender.ent
        (build_node_list (__corosync_dispatch_one cb0 coreW6 evW6).core.cpg_nodes
          (__corosync_dispatch_one cb0 coreW6 evW6).core.nr_cpg_nodes)
        (__corosync_dispatch_one cb0 coreW6 evW6).core.nr_cpg_nodes
      evW6.result evW6.msg] :=
  have h := C6_join_response cb0 coreW6 evW6 rfl (by decide)
  ⟨h.1, (h.2.2.2.2.1 (by decide)).2, h.2.2.2.2.2.1⟩

/-! ## C5 — deletion shifts the roster -/

/-- A successful `find_cpg_node` yields an index inside both the count and
the array. -/
theorem find_cpg_node_some_lt {nodes : List cpg_node} {nr : Nat} {key : cpg_node}
    {idx : Nat} (h : find_cpg_node nodes nr key = some idx) :
    idx < nr ∧ idx < nodes.length := by
  simp only [find_cpg_node] at h
  split at h
  · rename_i hlt
    cases h
    rw [List.length_take] at hlt
    exact ⟨Nat.lt_of_lt_of_le hlt (Nat.min_le_left _ _),
      Nat.lt_of_lt_of_le hlt (Nat.min_le_right _ _)⟩
  · cases h

/-- The roster after `del_cpg_node` + the caller's decrement is the old
roster with slot `idx` cut out (shared by C5 and the roster-distinctness
argument of C8). -/
theorem del_cpg_node_roster (nodes : List cpg_node) (nr : Nat) (deled : cpg_node)
    (idx : Nat) (hle : nr ≤ nodes.length)
    (hfind : find_cpg_node nodes nr deled = some idx) :
    rosterOf (del_cpg_node nodes nr deled) (nr - 1) =
      (rosterOf nodes nr).take idx ++ (rosterOf nodes nr).drop (idx + 1) := by
  obtain ⟨hidx, hidxl⟩ := find_cpg_node_some_lt hfind
  simp only [del_cpg_node, hfind, rosterOf]
  have hA : (nodes.take idx).length = idx := List.length_take_of_le (Nat.le_of_lt hidxl)
  have hB : ((nodes.drop (idx + 1)).take (nr - 1 - idx)).length = nr - 1 - idx := by
    apply List.length_take_of_le
    rw [List.length_drop]
    omega
  have hAB : (nodes.take idx ++ (nodes.drop (idx + 1)).take (nr - 1 - idx)).length
      = nr - 1 := by
    rw [List.length_append, hA, hB]; omega
  rw [List.append_assoc, List.take_append_eq_append_take]
  have h2 : (nodes.take idx).take (nr - 1) = nodes.take idx := by
    apply List.take_of_length_le
    rw [hA]; omega
  rw [h2, hA, List.take_append_eq_append_take]
  have h3 : ((nodes.drop (idx + 1)).take (nr - 1 - idx)).take (nr - 1 - idx) =
      (nodes.drop (idx + 1)).take (nr - 1 - idx) :=
    List.take_of_length_le (le_of_eq hB)
  rw [h3, hB, Nat.sub_self]
  simp only [List.take_zero, List.append_nil]
  rw [List.take_take, Nat.min_eq_left (Nat.le_of_lt hidx)]
  rw [List.drop_take]
  have h5 : nr - (idx + 1) = nr - 1 - idx := by omega
  rw [h5]

/-- C5: deleting the roster entry with the given NodeId (found at index
`idx`) shifts every subsequent entry down one slot, keeps the earlier
entries in place, leaves no holes (the new roster is exactly the old one
with slot `idx` removed, in order), and the new roster length is `n - 1`. -/
theorem C5_del_shifts_roster :
    ∀ (nodes : List cpg_node) (nr : Nat) (deled : cpg_node) (idx : Nat),
      0 < nr → nr ≤ nodes.length →
      find_cpg_node nodes nr deled = some idx →
      rosterOf (del_cpg_node nodes nr deled) (nr - 1) =
        (rosterOf nodes nr).take idx ++ (rosterOf nodes nr).drop (idx + 1) ∧
      (rosterOf (del_cpg_node nodes nr deled) (nr - 1)).length = nr - 1 ∧
      (∀ i, i < idx →
        (rosterOf (del_cpg_node nodes nr deled) (nr - 1)).getD i zero_node =
          (rosterOf nodes nr).getD i zero_node) ∧
      (∀ i, idx ≤ i → i < nr - 1 →
        (rosterOf (del_cpg_node nodes nr deled) (nr - 1)).getD i zero_node =
          (rosterOf nodes nr).getD (i + 1) zero_node) := by
  intro nodes nr deled idx hpos hle hfind
  obtain ⟨hidx, hidxl⟩ := find_cpg_node_some_lt hfind
  have hstruct := del_cpg_node_roster nodes nr deled idx hle hfind
  have hlenR : (rosterOf nodes nr).length = nr := by
    simp only [rosterOf]
    exact List.length_take_of_le hle
  have htakeIdx : ((rosterOf nodes nr).take idx).length = idx := by
    apply List.length_take_of_le
    omega
  refine ⟨hstruct, ?_, ?_, ?_⟩
  · rw [hstruct, List.length_append, htakeIdx, List.length_drop, hlenR]
    omega
  · intro i hi
    rw [hstruct]
    simp only [List.getD_eq_getElem?_getD]
    rw [List.getElem?_append_left (by rw [htakeIdx]; exact hi)]
    rw [List.getElem?_take_of_lt hi]
  · intro i hlo hhi
    rw [hstruct]
    simp only [List.getD_eq_getElem?_getD]
    rw [List.getElem?_append_right (by rw [htakeIdx]; exact hlo)]
    rw [htakeIdx, List.getElem?_drop]
    have : idx + 1 + (i - idx) = i + 1 := by omega
    rw [this]

/-- Witness for C5 at a concrete input: deleting `B` from roster
`[A, B, C]` gives `[A, C]` with `C` shifted into slot 1. -/
theorem C5_del_shifts_roster_witness :
    rosterOf (del_cpg_node [nodeA, nodeB, nodeC] 3 nodeB) 2 =
      (rosterOf [nodeA, nodeB, nodeC] 3).take 1 ++
        (rosterOf [nodeA, nodeB, nodeC] 3).drop 2 ∧
    (rosterOf (del_cpg_node [nodeA, nodeB, nodeC] 3 nodeB) 2).getD 1 zero_node =
      (rosterOf [nodeA, nodeB, nodeC] 3).getD 2 zero_node :=
  have h := C5_del_shifts_roster [nodeA, nodeB, nodeC] 3 nodeB 1
    (by decide) (by decide) (by decide)
  ⟨h.1, h.2.2.2 1 (by decide) (by decide)⟩

/-! ## C4 — is_master -/

/-- If some slot below `n` is not tombstoned, the scan for the first
non-`gone` entry stays below `n` and agrees with the scan of the `n`-prefix. -/
theorem first_not_gone_lt (l : List cpg_node) (n j : Nat) (hjn : j < n)
    (hjl : j < l.length) (hg : (l.getD j zero_node).gone = false) :
    first_not_gone l < n ∧ first_not_gone l = first_not_gone (l.take n) := by
  induction l generalizing n j with
  | nil => simp at hjl
  | cons c cs ih =>
    cases hcg : c.gone with
    | false =>
      refine ⟨by simp [first_not_gone, hcg]; omega, ?_⟩
      cases n with
      | zero => omega
      | succ m => simp [first_not_gone, hcg, List.take]
    | true =>
      cases j with
      | zero => simp [hcg] at hg
      | succ k =>
        cases n with
        | zero => omega
        | succ m =>
          have hkl : k < cs.length := by simpa using hjl
          have hkg : (cs.getD k zero_node).gone = false := by simpa using hg
          obtain ⟨ih1, ih2⟩ := ih m k (by omega) hkl hkg
          constructor
          · simp only [first_not_gone, hcg, if_true]
            omega
          · simp [first_not_gone, hcg, List.take, ih2]

/-- C4, amended: `is_master` returns `0` on an empty roster, and whenever at
least one roster entry is not tombstoned it agrees with the specified
behaviour (`is_master_claim`): the index of `node` if `node` is the first
roster entry with `gone` false, a negative result otherwise.  (When every
roster entry is tombstoned the code's scan runs past `nr_cpg_nodes` into
stale array slots, where it can disagree — see the counterexample.) -/
theorem C4_is_master_amended :
    (∀ (arr : List cpg_node) (node : cpg_node), is_master arr 0 node = 0) ∧
    (∀ (arr : List cpg_node) (nr : Nat) (node : cpg_node),
      nr ≠ 0 → nr ≤ arr.length →
      (∃ j, j < nr ∧ (arr.getD j zero_node).gone = false) →
      is_master arr nr node = is_master_claim (rosterOf arr nr) node) := by
  constructor
  · intro arr node
    simp [is_master]
  · intro arr nr node hnr hle hex
    obtain ⟨j, hjn, hg⟩ := hex
    have hjl : j < arr.length := Nat.lt_of_lt_of_le hjn hle
    obtain ⟨hlt, heq⟩ := first_not_gone_lt arr nr j hjn hjl hg
    have hroster_len : (rosterOf arr nr).length = nr := by
      simp only [rosterOf]
      exact List.length_take_of_le hle
    have hgetD : (rosterOf arr nr).getD (first_not_gone arr) zero_node =
        arr.getD (first_not_gone arr) zero_node := by
      simp only [rosterOf, List.getD_eq_getElem?_getD]
      rw [List.getElem?_take_of_lt hlt]
    simp only [is_master, is_master_claim, hnr, if_false, hroster_len, rosterOf] at *
    rw [← heq, hgetD]
    have harr : first_not_gone arr < arr.length := Nat.lt_of_lt_of_le hlt hle
    simp [harr, hlt, hnr]

/-- Witness for C4 (amended part) at a concrete input: a two-slot array with
roster `[A]`, `A` not tombstoned. -/
theorem C4_is_master_amended_witness :
    is_master [nodeA, nodeB] 1 nodeA =
      is_master_claim (rosterOf [nodeA, nodeB] 1) nodeA ∧
    is_master [nodeA, nodeB] 1 nodeA = 0 :=
  ⟨C4_is_master_amended.2 [nodeA, nodeB] 1 nodeA (by decide) (by decide)
      ⟨0, by decide, by decide⟩, by decide⟩

/-- The stale-slot scenario: the roster consists of the single tombstoned
entry `(1,1)` (`nr_cpg_nodes = 1`); the slots past the roster hold the
static zero initialisation. -/
def exArr : List cpg_node :=
  ⟨1, 1, true, 0⟩ :: List.replicate (SD_MAX_NODES - 1) zero_node

/-- Counterexample to C4 as stated: with every roster entry tombstoned, the
scan leaves the roster — `is_master` returns index `1` (a slot that is not
part of the roster) for the zero node, where the claimed behaviour
("returns the index of node in the roster if node is the first non-`gone`
roster entry, and a negative result otherwise") yields `-1`. -/
theorem C4_counterexample :
    is_master exArr 1 zero_node ≠ is_master_claim (rosterOf exArr 1) zero_node ∧
    is_master exArr 1 zero_node = 1 ∧
    is_master_claim (rosterOf exArr 1) zero_node = -1 :=
  ⟨by decide, by decide, by decide⟩

/-! ## C1 — pre-join gating -/

/-- C1, amended, at the level of one drain-loop iteration: while
`join_finished` is false, a JOIN_REQUEST head (without self-election) and a
NOTIFY head stop the drain with the event still queued and no upcall; a
LEAVE or BLOCK head — and a JOIN_RESPONSE from another sender — is removed
from its queue without any upcall and with the roster untouched.  (The
pre-join switch of the source compares the event type against message-type
constants, so the kinds that stay queued are JOIN_REQUEST and NOTIFY, not
JOIN_REQUEST and BLOCK.) -/
theorem C1_prejoin_amended :
    ∀ (cb : HostCallbacks) (core : CoreState) (cevent : corosync_event),
      core.join_finished = false →
      ((cevent.type = .LEAVE ∨ cevent.type = .BLOCK) →
        dispatch_body cb core cevent = .del core [] []) ∧
      (cevent.type = .JOIN_RESPONSE →
        cpg_node_equal cevent.sender core.this_node = false →
        dispatch_body cb core cevent = .del core [] []) ∧
      (cevent.type = .JOIN_REQUEST → core.self_elect = false →
        dispatch_body cb core cevent = .ret cevent core [] [] false) ∧
      (cevent.type = .NOTIFY →
        dispatch_body cb core cevent = .ret cevent core [] [] false) := by
  intro cb core cevent hjf
  refine ⟨?_, ?_, ?_, ?_⟩
  · rintro (ht | ht) <;> simp [dispatch_body, hjf, ht]
  · intro ht hs
    simp [dispatch_body, hjf, ht, hs]
  · intro ht hse
    simp [dispatch_body, hjf, ht, hse]
  · intro ht
    simp [dispatch_body, hjf, ht]

/-- Fixtures for the C1 witness: the initial (pre-join) core and a queued
LEAVE event. -/
def evW1 : corosync_event :=
  { type := .LEAVE, sender := nodeB, msg := none, msg_len := 0,
    result := .SUCCESS, nr_nodes := 0, nodes := [], callbacked := false }

/-- Witness for C1 (amended) at a concrete input: pre-join, a LEAVE head is
deleted unprocessed and a NOTIFY head stays queued. -/
theorem C1_prejoin_amended_witness :
    dispatch_body cb0 (init_state nodeA).core evW1 = .del (init_state nodeA).core [] [] ∧
    dispatch_body cb0 (init_state nodeA).core { evW1 with type := .NOTIFY } =
      .ret { evW1 with type := .NOTIFY } (init_state nodeA).core [] [] false :=
  have h := C1_prejoin_amended cb0 (init_state nodeA).core evW1 rfl
  have h2 := C1_prejoin_amended cb0 (init_state nodeA).core
    { evW1 with type := .NOTIFY } rfl
  ⟨h.1 (Or.inl rfl), h2.2.2.2 rfl⟩

/-- A reachable pre-join history: this node `A` joins a group of three, the
GCS then evicts `A` (cancelling its pending JOIN_REQUEST) and reports `B`
leaving, which queues a LEAVE event at the head of the empty non-block
queue while `join_finished` is still false. -/
def c1_tr : List SysCall :=
  [ .confchg true [(1, 1), (2, 2), (3, 3)] [(1, 1)] [],
    .confchg false [(2, 2), (3, 3)] [] [(1, 1)],
    .confchg true [(3, 3)] [] [(2, 2)] ]

/-- The reachable state with `join_finished = false` and a LEAVE event at
the head of the non-block queue. -/
def stA : CorosyncState := (run_calls cb0 c1_tr (init_state nodeA)).st

/-- Counterexample to C1 as stated: from the reachable state `stA`
(`join_finished` false, head event a LEAVE), a dispatcher call REMOVES the
LEAVE event — without processing it (no upcall) — where the claim says any
LEAVE at the head must remain queued, neither processed nor removed, until
`join_finished` becomes true. -/
theorem C1_counterexample :
    (run_calls cb0 c1_tr (init_state nodeA)).fatal = none ∧
    stA.core.join_finished = false ∧
    stA.corosync_nonblock_event_list.map (fun e => e.type) = [.LEAVE] ∧
    stA.corosync_block_event_list = [] ∧
    (__corosync_dispatch cb0 false stA).st.corosync_nonblock_event_list = [] ∧
    (__corosync_dispatch cb0 false stA).upcalls = [] :=
  ⟨by decide, by decide, by decide, by decide, by decide, by decide⟩

/-! ## C2 — UNBLOCK with no matching BLOCK -/

/-- When no element matches, `erase_first` removes nothing. -/
theorem erase_first_eq_none {p : α → Bool} {l : List α}
    (h : ∀ x ∈ l, p x = false) : erase_first p l = none := by
  induction l with
  | nil => rfl
  | cons x xs ih =>
    simp only [erase_first, h x (by simp)]
    simp [ih (fun y hy => h y (by simp [hy]))]

/-- C2, amended: delivering an UNBLOCK from `X` when no BLOCK event from `X`
is queued removes nothing — the block queue, the roster and all other local
state are unchanged — but the branch falls through to the NOTIFY allocation,
so a NOTIFY event carrying the UNBLOCK payload is appended to the non-block
queue (and its later processing invokes `notify_received`); with the GCS
readiness indicator set, the whole deliver callback does exactly that and
nothing else. -/
theorem C2_unblock_amended :
    ∀ (cmsg : corosync_message) (st : CorosyncState) (cb : HostCallbacks),
      cmsg.type = .UNBLOCK →
      (∀ e ∈ st.corosync_block_event_list,
        event_matches .BLOCK cmsg.sender e = false) →
      cdrv_cpg_deliver_intake cmsg st =
        { st with corosync_nonblock_event_list :=
            st.corosync_nonblock_event_list ++ [mk_new_event .NOTIFY cmsg] } ∧
      cdrv_cpg_deliver cb true cmsg st =
        ⟨{ st with corosync_nonblock_event_list :=
            st.corosync_nonblock_event_list ++ [mk_new_event .NOTIFY cmsg] },
          [], [], none⟩ := by
  intro cmsg st cb ht hnone
  have hi : cdrv_cpg_deliver_intake cmsg st =
      { st with corosync_nonblock_event_list :=
          st.corosync_nonblock_event_list ++ [mk_new_event .NOTIFY cmsg] } := by
    simp [cdrv_cpg_deliver_intake, ht, erase_first_eq_none hnone, queue_event,
      mk_new_event]
  refine ⟨hi, ?_⟩
  rw [cdrv_cpg_deliver, hi]
  rfl

/-- Fixture: an UNBLOCK multicast from `B` with an empty payload. -/
def unblockMsg : corosync_message := ⟨nodeB, .UNBLOCK, .SUCCESS, 0, 0, [], []⟩

/-- Witness for C2 (amended) at a concrete input. -/
theorem C2_unblock_amended_witness :
    cdrv_cpg_deliver_intake unblockMsg (init_state nodeA) =
      { init_state nodeA with corosync_nonblock_event_list :=
          (init_state nodeA).corosync_nonblock_event_list ++
            [mk_new_event .NOTIFY unblockMsg] } :=
  (C2_unblock_amended unblockMsg (init_state nodeA) cb0 rfl (by decide)).1

/-- A joined state with empty queues. -/
def stJF : CorosyncState :=
  { init_state nodeA with core := { (init_state nodeA).core with join_finished := true } }

/-- Counterexample to C2 as stated: at a state with no BLOCK event queued
for `B` (the block queue is empty), delivering `UNBLOCK(B)` is not a no-op:
the non-block queue gains a NOTIFY event, and — when the dispatcher runs
(here on a joined node) — `notify_received` is invoked on account of that
UNBLOCK, where the claim says both queues stay unchanged and no upcall is
ever invoked. -/
theorem C2_counterexample :
    (init_state nodeA).corosync_block_event_list = [] ∧
    (cdrv_cpg_deliver cb0 true unblockMsg
        (init_state nodeA)).st.corosync_nonblock_event_list.map (fun e => e.type) =
      [.NOTIFY] ∧
    stJF.corosync_block_event_list = [] ∧
    (cdrv_cpg_deliver cb0 false unblockMsg stJF).upcalls =
      [.notify_handler nodeB.ent none 0] :=
  ⟨by decide, by decide, by decide, by decide⟩

/-! ## C8 — roster NodeId distinctness -/

/-- Tombstoning a slot does not change the NodeIds of any prefix. -/
theorem map_ids_take_set_gone (l : List cpg_node) (nr i : Nat) :
    (((l.set i { l.getD i zero_node with gone := true }).take nr).map nodeIdOf) =
      ((l.take nr).map nodeIdOf) := by
  induction l generalizing nr i with
  | nil => simp
  | cons x xs ih =>
    cases i with
    | zero =>
      cases nr with
      | zero => simp
      | succ m => simp [nodeIdOf]
    | succ k =>
      cases nr with
      | zero => simp
      | succ m =>
        simp only [List.set, List.getD_cons_succ, List.take, List.map_cons,
          List.cons.injEq, true_and]
        exact ih m k

/-- The update `mark_gone` preserves the roster NodeIds. -/
theorem rosterIds_mark_gone (core : CoreState) (i : Nat) :
    rosterIds (mark_gone core i) = rosterIds core := by
  simp only [rosterIds, mark_gone, rosterOf]
  exact map_ids_take_set_gone core.cpg_nodes core.nr_cpg_nodes i

/-- The helper `queue_event` does not touch the core state. -/
theorem queue_event_core (st : CorosyncState) (e : corosync_event) :
    (queue_event st e).core = st.core := by
  simp only [queue_event]
  split <;> rfl

/-- Appending a fresh NodeId at the end of the roster keeps the NodeIds
distinct (both for an in-bounds append and for the degenerate full-array
case, where the C write would be out of bounds and the model drops it). -/
theorem nodup_roster_append (arr : List cpg_node) (nr : Nat) (s : cpg_node)
    (hnd : ((arr.take nr).map nodeIdOf).Nodup)
    (hs : nodeIdOf s ∉ (arr.take nr).map nodeIdOf) :
    (((arr.set nr s).take (nr + 1)).map nodeIdOf).Nodup := by
  rcases Nat.lt_or_ge nr arr.length with hlt | hge
  · rw [take_succ_set_eq arr nr s hlt]
    simp only [List.map_append, List.map_cons, List.map_nil, List.nodup_append]
    refine ⟨hnd, List.nodup_singleton _, ?_⟩
    intro a ha hmem
    simp only [List.mem_singleton] at hmem
    subst hmem
    exact hs ha
  · rw [List.set_eq_of_length_le hge]
    have h1 : arr.take (nr + 1) = arr := List.take_of_length_le (by omega)
    have h2 : arr.take nr = arr := List.take_of_length_le hge
    rw [h1]
    rw [h2] at hnd
    exact hnd

/-- The step `__corosync_dispatch_one` keeps the roster NodeIds distinct, provided a
JOIN_RESPONSE being processed carries a sender that is not yet a roster
member. -/
theorem nodup_dispatch_one (cb : HostCallbacks) (core : CoreState)
    (cevent : corosync_event)
    (hle : core.nr_cpg_nodes ≤ core.cpg_nodes.length)
    (hnd : (rosterIds core).Nodup)
    (hjr : cevent.type = .JOIN_RESPONSE → nodeIdOf cevent.sender ∉ rosterIds core) :
    (rosterIds (__corosync_dispatch_one cb core cevent).core).Nodup := by
  rcases ht : cevent.type with _ | _ | _ | _ | _
  case JOIN_REQUEST =>
    simp only [__corosync_dispatch_one, ht]
    repeat' split
    all_goals first
      | exact hnd
      | simp [rosterIds, rosterOf]
  case JOIN_RESPONSE =>
    have hs := hjr ht
    simp only [__corosync_dispatch_one, ht]
    rcases hres : cevent.result with _ | _ | _ | _ <;> simp only
    case FAIL => exact hnd
    all_goals
      simpa [rosterIds, rosterOf, add_cpg_node] using
        nodup_roster_append core.cpg_nodes core.nr_cpg_nodes cevent.sender hnd hs
  case LEAVE =>
    simp only [__corosync_dispatch_one, ht]
    rcases hf : find_cpg_node core.cpg_nodes core.nr_cpg_nodes cevent.sender
      with _ | idx <;> simp only
    · exact hnd
    · have hfun :
          (fun c => cpg_node_equal c
            { cevent.sender with ent := (core.cpg_nodes.getD idx zero_node).ent }) =
          (fun c => cpg_node_equal c cevent.sender) := by
        funext c
        simp [cpg_node_equal]
      have hf1 : find_cpg_node core.cpg_nodes core.nr_cpg_nodes
          { cevent.sender with ent := (core.cpg_nodes.getD idx zero_node).ent } =
          some idx := by
        simpa only [find_cpg_node, hfun] using hf
      have hro := del_cpg_node_roster core.cpg_nodes core.nr_cpg_nodes
        { cevent.sender with ent := (core.cpg_nodes.getD idx zero_node).ent }
        idx hle hf1
      simp only [rosterIds]
      rw [hro, ← List.eraseIdx_eq_take_drop_succ]
      exact List.Nodup.sublist
        ((List.eraseIdx_sublist (rosterOf core.cpg_nodes core.nr_cpg_nodes) idx).map
          nodeIdOf) hnd
  case BLOCK =>
    simp only [__corosync_dispatch_one, ht]
    split <;> exact hnd
  case NOTIFY =>
    simp only [__corosync_dispatch_one, ht]
    exact hnd

/-- One drain-loop iteration keeps the roster NodeIds distinct, provided
(a) a JOIN_RESPONSE processed after the join carries a sender not yet in the
roster, and (b) a pre-join JOIN_RESPONSE addressed to this node carries a
well-formed, duplicate-free roster snapshot that does not already contain
the sender. -/
theorem nodup_dispatch_body (cb : HostCallbacks) (core : CoreState)
    (cevent : corosync_event)
    (hle : core.nr_cpg_nodes ≤ core.cpg_nodes.length)
    (hnd : (rosterIds core).Nodup)
    (hpost : cevent.type = .JOIN_RESPONSE → core.join_finished = true →
      nodeIdOf cevent.sender ∉ rosterIds core)
    (hpre : cevent.type = .JOIN_RESPONSE → core.join_finished = false →
      cpg_node_equal cevent.sender core.this_node = true →
      cevent.nr_nodes ≤ cevent.nodes.length ∧ (snapIds cevent).Nodup ∧
      nodeIdOf cevent.sender ∉ snapIds cevent) :
    (rosterIds (bodyCore (dispatch_body cb core cevent))).Nodup := by
  rcases hjf : core.join_finished with _ | _
  · -- join_finished = false
    rcases ht : cevent.type with _ | _ | _ | _ | _
    case JOIN_REQUEST =>
      rcases hse : core.self_elect with _ | _
      · have hb : bodyCore (dispatch_body cb core cevent) = core := by
          simp [dispatch_body, hjf, ht, hse, bodyCore]
        rw [hb]
        exact hnd
      · have hone := nodup_dispatch_one cb
          { core with join_finished := true, nr_cpg_nodes := 0 } cevent
          (by simp) (by simp [rosterIds, rosterOf])
          (fun h => absurd h (by simp [ht]))
        have hb : bodyCore (dispatch_body cb core cevent) =
            (__corosync_dispatch_one cb
              { core with join_finished := true, nr_cpg_nodes := 0 } cevent).core := by
          simp only [dispatch_body, hjf, ht, hse, Bool.false_eq_true, if_false, if_true]
          first
          | rfl
          | (split <;> first | rfl | (split <;> rfl))
        rw [hb]
        exact hone
    case JOIN_RESPONSE =>
      rcases hsend : cpg_node_equal cevent.sender core.this_node with _ | _
      · have hb : bodyCore (dispatch_body cb core cevent) = core := by
          simp [dispatch_body, hjf, ht, hsend, bodyCore]
        rw [hb]
        exact hnd
      · obtain ⟨hlen, hsnap_nd, hsnap_nin⟩ := hpre ht hjf hsend
        have hsnaplen : (cevent.nodes.take cevent.nr_nodes).length = cevent.nr_nodes :=
          List.length_take_of_le hlen
        have hro1 : ((cevent.nodes.take cevent.nr_nodes ++
            core.cpg_nodes.drop (cevent.nodes.take cevent.nr_nodes).length).take
              cevent.nr_nodes).map nodeIdOf = snapIds cevent := by
          rw [List.take_append_eq_append_take]
          rw [List.take_of_length_le (le_of_eq hsnaplen), hsnaplen, Nat.sub_self]
          simp [snapIds]
        have hone := nodup_dispatch_one cb
          { core with
            join_finished := true
            nr_cpg_nodes := cevent.nr_nodes
            cpg_nodes := cevent.nodes.take cevent.nr_nodes ++
              core.cpg_nodes.drop (cevent.nodes.take cevent.nr_nodes).length }
          cevent
          (by
            simp only [List.length_append, hsnaplen]
            omega)
          (by
            simp only [rosterIds, rosterOf]
            rw [hro1]
            exact hsnap_nd)
          (fun _ => by
            simp only [rosterIds, rosterOf]
            rw [hro1]
            exact hsnap_nin)
        have hb : bodyCore (dispatch_body cb core cevent) =
            (__corosync_dispatch_one cb
              { core with
                join_finished := true
                nr_cpg_nodes := cevent.nr_nodes
                cpg_nodes := cevent.nodes.take cevent.nr_nodes ++
                  core.cpg_nodes.drop (cevent.nodes.take cevent.nr_nodes).length }
              cevent).core := by
          simp only [dispatch_body, hjf, ht, hsend, Bool.false_eq_true, if_false, if_true]
          first
          | rfl
          | (split <;> first | rfl | (split <;> rfl))
        rw [hb]
        exact hone
    case LEAVE =>
      have hb : bodyCore (dispatch_body cb core cevent) = core := by
        simp [dispatch_body, hjf, ht, bodyCore]
      rw [hb]
      exact hnd
    case BLOCK =>
      have hb : bodyCore (dispatch_body cb core cevent) = core := by
        simp [dispatch_body, hjf, ht, bodyCore]
      rw [hb]
      exact hnd
    case NOTIFY =>
      have hb : bodyCore (dispatch_body cb core cevent) = core := by
        simp [dispatch_body, hjf, ht, bodyCore]
      rw [hb]
      exact hnd
  · -- join_finished = true
    have hone := nodup_dispatch_one cb core cevent hle hnd (fun h => hpost h hjf)
    have hb : bodyCore (dispatch_body cb core cevent) =
        (__corosync_dispatch_one cb core cevent).core := by
      simp only [dispatch_body, hjf, if_true]
      first
      | rfl
      | (split <;> first | rfl | (split <;> rfl))
    rw [hb]
    exact hone

/-- Message intake never changes the roster NodeIds (only the queues and, on
LEAVE, a `gone` flag). -/
theorem rosterIds_deliver_intake (cmsg : corosync_message) (st : CorosyncState) :
    rosterIds (cdrv_cpg_deliver_intake cmsg st).core = rosterIds st.core := by
  rcases ht : cmsg.type with _ | _ | _ | _ | _ | _
  case JOIN_REQUEST =>
    simp only [cdrv_cpg_deliver_intake, ht]
    rcases hu : update_first (event_matches .JOIN_REQUEST cmsg.sender)
        (fun e => { update_event_msg cmsg.msg cmsg.msg_len e with sender := cmsg.sender })
        st.corosync_nonblock_event_list with _ | nb <;> simp
  case JOIN_RESPONSE =>
    simp only [cdrv_cpg_deliver_intake, ht]
    rcases hu : update_first (event_matches .JOIN_REQUEST cmsg.sender)
        (fun e =>
          { update_event_msg cmsg.msg cmsg.msg_len e with
            type := .JOIN_RESPONSE
            result := cmsg.result
            nr_nodes := cmsg.nr_nodes
            nodes := cmsg.nodes.take cmsg.nr_nodes })
        st.corosync_nonblock_event_list with _ | nb <;> simp
  case LEAVE =>
    simp only [cdrv_cpg_deliver_intake, ht]
    rw [queue_event_core]
    split
    · rfl
    · exact rosterIds_mark_gone st.core _
  case NOTIFY =>
    simp only [cdrv_cpg_deliver_intake, ht]
    rw [queue_event_core]
  case BLOCK =>
    simp only [cdrv_cpg_deliver_intake, ht]
    rw [queue_event_core]
  case UNBLOCK =>
    simp only [cdrv_cpg_deliver_intake, ht]
    rw [queue_event_core]
    rcases he : erase_first (event_matches .BLOCK cmsg.sender)
        st.corosync_block_event_list with _ | bl <;> simp

/-- One left-list iteration of the membership-change intake never changes
the roster NodeIds. -/
theorem rosterIds_confchg_left_one (st : CorosyncState) (node : cpg_node) :
    rosterIds (confchg_left_one st node).core = rosterIds st.core := by
  simp only [confchg_left_one]
  rcases h1 : erase_first (event_matches .JOIN_REQUEST node)
      st.corosync_nonblock_event_list with _ | nb
  · simp only
    rw [queue_event_core]
    rcases h2 : erase_first (event_matches .BLOCK node)
        st.corosync_block_event_list with _ | bl <;>
      · simp only
        split
        · rfl
        · exact rosterIds_mark_gone _ _
  · simp

/-- Folding the left list preserves the roster NodeIds. -/
theorem rosterIds_confchg_left_fold :
    ∀ (ns : List cpg_node) (st : CorosyncState),
      rosterIds ((ns.foldl confchg_left_one st)).core = rosterIds st.core := by
  intro ns
  induction ns with
  | nil => intro st; rfl
  | cons n ns ih =>
    intro st
    simp only [List.foldl_cons]
    rw [ih, rosterIds_confchg_left_one]

/-- Folding the joined list preserves the roster NodeIds. -/
theorem rosterIds_confchg_joined_fold :
    ∀ (ns : List cpg_node) (st : CorosyncState),
      rosterIds ((ns.foldl confchg_joined_one st)).core = rosterIds st.core := by
  intro ns
  induction ns with
  | nil => intro st; rfl
  | cons n ns ih =>
    intro st
    simp only [List.foldl_cons]
    rw [ih]
    simp only [confchg_joined_one]
    rw [queue_event_core]

/-- Membership-change intake never changes the roster NodeIds. -/
theorem rosterIds_confchg_intake (mem j l : List (Nat × Nat)) (st : CorosyncState) :
    rosterIds (cdrv_cpg_confchg_intake mem j l st).1.core = rosterIds st.core := by
  simp only [cdrv_cpg_confchg_intake]
  rcases hg : (confchg_guard st.core.nr_majority mem.length l.length).2 with _ | s
  · simp only [hg]
    have hfold : rosterIds (List.foldl confchg_joined_one
        (List.foldl confchg_left_one
          { st with core := { st.core with
              nr_majority := (confchg_guard st.core.nr_majority mem.length l.length).1 } }
          (l.map addr_to_node)) (j.map addr_to_node)).core = rosterIds st.core := by
      rw [rosterIds_confchg_joined_fold, rosterIds_confchg_left_fold]
      rfl
    split
    · exact hfold
    · split
      · exact hfold
      · exact hfold
  · simp only [hg]
    rfl

/-- C8, amended: intake (message deliveries and membership changes) never
changes the roster's NodeIds, and every drain-loop iteration preserves
NodeId-distinctness of the roster provided any JOIN_RESPONSE it processes
post-join carries a sender not already in the roster and any roster snapshot
it adopts pre-join is well-formed, duplicate-free and does not contain the
sender.  (Without those provisos — which encode the GCS guarantee that a
node does not join twice without leaving and that the master's snapshot is
honest — the roster can acquire duplicates; see the counterexample.) -/
theorem C8_nodup_amended :
    (∀ (cmsg : corosync_message) (st : CorosyncState),
      rosterIds (cdrv_cpg_deliver_intake cmsg st).core = rosterIds st.core) ∧
    (∀ (mem j l : List (Nat × Nat)) (st : CorosyncState),
      rosterIds (cdrv_cpg_confchg_intake mem j l st).1.core = rosterIds st.core) ∧
    (∀ (cb : HostCallbacks) (core : CoreState) (cevent : corosync_event),
      core.nr_cpg_nodes ≤ core.cpg_nodes.length →
      (rosterIds core).Nodup →
      (cevent.type = .JOIN_RESPONSE → core.join_finished = true →
        nodeIdOf cevent.sender ∉ rosterIds core) →
      (cevent.type = .JOIN_RESPONSE → core.join_finished = false →
        cpg_node_equal cevent.sender core.this_node = true →
        cevent.nr_nodes ≤ cevent.nodes.length ∧ (snapIds cevent).Nodup ∧
        nodeIdOf cevent.sender ∉ snapIds cevent) →
      (rosterIds (bodyCore (dispatch_body cb core cevent))).Nodup) :=
  ⟨rosterIds_deliver_intake, rosterIds_confchg_intake, nodup_dispatch_body⟩

/-- Witness for C8 (amended) at a concrete input: processing a fresh
JOIN_RESPONSE for `B` on a joined node with roster `[A]` keeps the NodeIds
distinct. -/
theorem C8_nodup_amended_witness :
    (rosterIds (bodyCore (dispatch_body cb0 coreW6 evW6))).Nodup :=
  C8_nodup_amended.2.2 cb0 coreW6 evW6 (by decide) (by decide)
    (fun _ _ => by decide)
    (fun _ h _ => absurd h (by decide))

/-- The adversarial double-join intake sequence: the GCS reports node `A`
joining (placeholder JOIN_REQUEST), then a JOIN_RESPONSE for `A` arrives
whose roster snapshot already lists `B` twice. -/
def c8_tr : List SysCall :=
  [ .confchg true [(1, 1)] [(1, 1)] [],
    .deliver false ⟨nodeA, .JOIN_RESPONSE, .SUCCESS, 0, 2, [nodeB, nodeB], []⟩ ]

/-- Counterexample to C8 as stated: a sequence of intake calls (one
membership change and one message delivery, with the dispatches they
trigger) after which the roster holds NodeId `(2,2)` twice — the roster
NodeIds are not duplicate-free for every intake sequence. -/
theorem C8_counterexample :
    (run_calls cb0 c8_tr (init_state nodeA)).fatal = none ∧
    rosterIds (run_calls cb0 c8_tr (init_state nodeA)).st.core =
      [(2, 2), (2, 2), (1, 1)] ∧
    ¬ (rosterIds (run_calls cb0 c8_tr (init_state nodeA)).st.core).Nodup :=
  ⟨by decide, by decide, by decide⟩
